import Mathlib

/-!
Verification development for the EA_Challenge voice-assistant relay.

The core under study is the TCP framing protocol and server/client loops:
  - `src/app/interfaces/tcp_server.py` (`TCPServer.handle_client`,
    `TCPServer.send_message`),
  - `src/app/interfaces/tcp_client.py` and `src/client/tcp_client.py`
    (`TCPClient.send_question`; the two files contain the identical read
    loop and error handling),
  - `src/app/service/voice_answer.py` (`VoiceAnswer.get_voice_answer`
    service loop),
  - `src/app/agents/class_agents.py` and `src/app/instances/class_agents.py`
    (`MultiModelAgent.__init__` provider dispatch).

Bytes are modelled as `Nat` (value of the Python byte); byte strings as
`List Nat`; the successive results of `reader.read(1024*1024)` as a
`List (List Nat)`, where an empty element models a zero-length read
(connection closed).
-/

/-- Boolean test that `pat` is a prefix of `l`; models Python
`bytes.startswith` and is the building block for the `in` operator on
`bytes`/`str` (contiguous subsequence search). -/
def startsWithSeq [DecidableEq α] : List α → List α → Bool
  | [], _ => true
  | _ :: _, [] => false
  | p :: ps, x :: xs => decide (p = x) && startsWithSeq ps xs

/-- Boolean test that `pat` occurs contiguously inside `l`; models the
Python expression `pat in data` on `bytes` (and `str`). -/
def containsSeq [DecidableEq α] (pat : List α) : List α → Bool
  | [] => startsWithSeq pat []
  | x :: xs => startsWithSeq pat (x :: xs) || containsSeq pat xs

/-- The longest prefix of `l` that stops just before the first occurrence
of `pat`; models `data.split(pat)[0]` when `pat` occurs in `data`. -/
def takeBeforeSeq [DecidableEq α] (pat : List α) : List α → List α
  | [] => []
  | x :: xs => if startsWithSeq pat (x :: xs) then [] else x :: takeBeforeSeq pat xs

/-- The sentinel `b"<END_OF_AUDIO>"` (14 ASCII bytes) used by
`TCPServer.send_message` and matched by `TCPClient.send_question`. -/
def endMarker : List Nat := [60, 69, 78, 68, 95, 79, 70, 95, 65, 85, 68, 73, 79, 62]

/-- Chunk size used by both sides: `1024*1024` (1 MiB). -/
def chunkSize : Nat := 1024 * 1024

/-- Fuel-indexed worker for `chunkSplit`; the fuel dominates the number of
chunks so the recursion is structural (and kernel-reducible). -/
def chunkSplitFuel (n : Nat) : Nat → List α → List (List α)
  | 0, _ => []
  | _, [] => []
  | fuel + 1, x :: xs => (x :: xs).take n :: chunkSplitFuel n fuel ((x :: xs).drop n)

/-- Split `data` into consecutive chunks of at most `n` elements; models the
loop `for i in range(0, len(data), chunk_size): chunk = data[i:i+chunk_size]`
in `TCPServer.send_message` (tcp_server.py lines 90-93). -/
def chunkSplit (n : Nat) (data : List α) : List (List α) :=
  chunkSplitFuel n data.length data

/-- The sequence of `write` calls `TCPServer.send_message` performs for a
payload `data`: the 1 MiB chunks of `data` in order, then the sentinel
(tcp_server.py lines 89-98). -/
def frameWrites (data : List Nat) : List (List Nat) :=
  chunkSplit chunkSize data ++ [endMarker]

/-- The read loop of `TCPClient.send_question` (tcp_client.py lines 28-39):
`acc` is the `audio_data` accumulator, the list argument the successive
results of `reader.read(1024*1024)`.  Returns `some (payload, sawMarker)`
when the loop breaks (`sawMarker` records which `break` fired: `true` for
the sentinel branch, `false` for a zero-length read), and `none` when the
reads are exhausted without a break (the Python loop would block in
`reader.read`). -/
def readLoop (acc : List Nat) : List (List Nat) → Option (List Nat × Bool)
  | [] => none
  | c :: rest =>
    if c = [] then some (acc, false)
    else if containsSeq endMarker c then some (acc ++ takeBeforeSeq endMarker c, true)
    else readLoop (acc ++ c) rest

/-- UTF-8 encoding of a Lean string as a list of byte values; models the
Python expression `s.encode()` (UTF-8 is Python's default codec). -/
def pyEncodeStr (s : String) : List Nat :=
  (s.data.flatMap String.utf8EncodeChar).map (fun b => b.toNat)

/-- ASCII lowercasing of one character; models `str.lower()` per character
for the ASCII range (the model names dispatched on in this repository are
all ASCII). -/
def pyLowerChar (c : Char) : Char :=
  if 65 ≤ c.toNat ∧ c.toNat ≤ 90 then Char.ofNat (c.toNat + 32) else c

/-- Lowercasing of a string; models `model_name.lower()`. -/
def pyLower (s : String) : List Char :=
  s.data.map pyLowerChar

/-- Whitespace predicate of `str.strip()`: the characters for which
Python's `str.isspace()` is true — tab through carriage return
(0x09-0x0D), the separators 0x1C-0x1F, space, next line (0x85),
no-break space (0xA0), and the Unicode space/line/paragraph separators
(0x1680, 0x2000-0x200A, 0x2028, 0x2029, 0x202F, 0x205F, 0x3000). -/
def isPySpace (c : Char) : Bool :=
  (9 ≤ c.toNat && c.toNat ≤ 13) || (28 ≤ c.toNat && c.toNat ≤ 31) ||
    c.toNat = 32 || c.toNat = 0x85 || c.toNat = 0xA0 || c.toNat = 0x1680 ||
    (0x2000 ≤ c.toNat && c.toNat ≤ 0x200A) || c.toNat = 0x2028 ||
    c.toNat = 0x2029 || c.toNat = 0x202F || c.toNat = 0x205F ||
    c.toNat = 0x3000

/-- Strip surrounding whitespace from a character list; models
`str.strip()`. -/
def pyStrip (l : List Char) : List Char :=
  ((l.dropWhile isPySpace).reverse.dropWhile isPySpace).reverse

/-- String-valued version of `pyStrip`, for storing stripped messages. -/
def pyStripStr (s : String) : String :=
  String.mk (pyStrip s.data)

/-- Strict UTF-8 decoder on byte values, with fuel for structural recursion
(fuel one unit per decoded character suffices since every character consumes
at least one byte).  Models Python `bytes.decode()` (strict UTF-8: rejects
continuation-byte leads, overlong encodings, surrogates, code points above
U+10FFFF and truncated sequences). -/
def utf8DecodeFuel : Nat → List Nat → Option (List Char)
  | _, [] => some []
  | 0, _ :: _ => none
  | fuel + 1, b :: rest =>
    if b < 0x80 then
      (utf8DecodeFuel fuel rest).map (fun cs => Char.ofNat b :: cs)
    else if b < 0xC2 then none
    else if b < 0xE0 then
      match rest with
      | b1 :: rest1 =>
        if 0x80 ≤ b1 ∧ b1 < 0xC0 then
          (utf8DecodeFuel fuel rest1).map (fun cs =>
            Char.ofNat ((b - 0xC0) * 64 + (b1 - 0x80)) :: cs)
        else none
      | _ => none
    else if b < 0xF0 then
      match rest with
      | b1 :: b2 :: rest2 =>
        if (0x80 ≤ b1 ∧ b1 < 0xC0) ∧ (0x80 ≤ b2 ∧ b2 < 0xC0) ∧
            (b = 0xE0 → 0xA0 ≤ b1) ∧ (b = 0xED → b1 < 0xA0) then
          (utf8DecodeFuel fuel rest2).map (fun cs =>
            Char.ofNat ((b - 0xE0) * 4096 + (b1 - 0x80) * 64 + (b2 - 0x80)) :: cs)
        else none
      | _ => none
    else if b < 0xF5 then
      match rest with
      | b1 :: b2 :: b3 :: rest3 =>
        if (0x80 ≤ b1 ∧ b1 < 0xC0) ∧ (0x80 ≤ b2 ∧ b2 < 0xC0) ∧
            (0x80 ≤ b3 ∧ b3 < 0xC0) ∧
            (b = 0xF0 → 0x90 ≤ b1) ∧ (b = 0xF4 → b1 < 0x90) then
          (utf8DecodeFuel fuel rest3).map (fun cs =>
            Char.ofNat ((b - 0xF0) * 262144 + (b1 - 0x80) * 4096 +
              (b2 - 0x80) * 64 + (b3 - 0x80)) :: cs)
        else none
      | _ => none
    else none

/-- Decode a byte list as strict UTF-8 into a string; `none` models a
`UnicodeDecodeError` from `data.decode()`. -/
def pyDecode (data : List Nat) : Option String :=
  (utf8DecodeFuel data.length data).map String.mk

/-- The mutable per-request fields of `TCPServer` (tcp_server.py lines
30-32): `received_message`, `client_address`, `client_writer`.  Addresses
and writer handles are abstracted as natural numbers. -/
structure ServerState where
  received_message : Option String
  client_address : Option Nat
  client_writer : Option Nat
deriving DecidableEq

/-- A value that can be passed as the `answer` argument of
`TCPServer.send_message`: a Python `str` or `bytes`. -/
inductive PyAnswer
  | str (s : String)
  | bytes (b : List Nat)

/-- The byte payload `send_message` actually transmits: the line
`data = answer.encode() if isinstance(answer, str) else answer`
(tcp_server.py line 85). -/
def pyAnswerData : PyAnswer → List Nat
  | .str s => pyEncodeStr s
  | .bytes b => b

/-- The guard of `TCPServer.send_message` (tcp_server.py line 83):
`if self.client_writer and (address is None or address == self.client_address)`.
A non-`None` writer object is always truthy, so the first conjunct is
`isSome`; `==` between an address and `None` is `False`, which Option
equality reproduces. -/
def sendCondition (st : ServerState) (address : Option Nat) : Bool :=
  st.client_writer.isSome && (address.isNone || decide (address = st.client_address))

/-- `TCPServer.send_message` (tcp_server.py lines 71-113).  Returns the new
server state, the list of byte chunks written to the client writer (in
order), and the boolean result.  On the guarded branch the payload chunks
and the end marker are written and the three state fields are cleared
before returning `True`; otherwise nothing is written, the state is
untouched and `False` is returned. -/
def send_message (st : ServerState) (answer : PyAnswer) (address : Option Nat) :
    ServerState × List (List Nat) × Bool :=
  if sendCondition st address then
    ({ received_message := none, client_address := none, client_writer := none },
      frameWrites (pyAnswerData answer), true)
  else
    (st, [], false)

/-- Outcome of one `TCPServer.handle_client` activation, as far as its
synchronous prefix goes (after storing a message the coroutine parks in
`while self.client_writer is not None` until `send_message` clears the
writer; the stored state below is the state at that point). -/
inductive HandleOutcome
  | earlyReturn
  | stored (msg : String)
  | decodeError
deriving DecidableEq

/-- Result record for `handle_client`: final server state, outcome,
number of `reader.read` calls performed, whether the empty-read warning
was logged, and whether `writer.close()` ran (the `finally` block,
tcp_server.py lines 66-69, closes the connection on every path). -/
structure HandleResult where
  state : ServerState
  outcome : HandleOutcome
  readsPerformed : Nat
  warned : Bool
  closeCalled : Bool
deriving DecidableEq

/-- `TCPServer.handle_client` (tcp_server.py lines 34-69) on a connection
from `addr` with writer handle `w` whose single `reader.read(1024*1024)`
returns `data`.  Lines 43-44 record the active context; line 48 is the one
read; lines 49-51 return early on an empty read after a warning; line 54
decodes (a `UnicodeDecodeError` is caught by the `except` at line 64) and
strips; line 58 stores the message.  The `finally` block always closes the
connection. -/
def handle_client (st : ServerState) (addr w : Nat) (data : List Nat) :
    HandleResult :=
  let st1 : ServerState :=
    { st with client_address := some addr, client_writer := some w }
  if data = [] then
    ⟨st1, .earlyReturn, 1, true, true⟩
  else
    match pyDecode data with
    | none => ⟨st1, .decodeError, 1, false, true⟩
    | some s =>
        let msg := pyStripStr s
        ⟨{ st1 with received_message := some msg }, .stored msg, 1, false, true⟩

/-- One iteration of the polling service loop in
`VoiceAnswer.get_voice_answer` (voice_answer.py lines 139-171), with the
Answer Provider (`assist_user`) and Speech Provider
(`transform_text_to_speech`) abstracted as opaque functions.  When a
message is pending it is answered, synthesized, sent back via
`send_message` with `address=self.tcp_server.client_address` (line 158),
and `received_message` is cleared (line 166); otherwise the loop sleeps. -/
def processCycle (answerProvider : String → String) (tts : String → List Nat)
    (st : ServerState) : ServerState × List (List Nat) × Bool :=
  match st.received_message with
  | none => (st, [], false)
  | some msg =>
      let audio := tts (answerProvider msg)
      let r := send_message st (.bytes audio) st.client_address
      ({ r.1 with received_message := none }, r.2.1, r.2.2)

/-- The transport-level behavior of one run of `TCPClient.send_question`
(identical in src/app/interfaces/tcp_client.py lines 12-54 and
src/client/tcp_client.py lines 30-80):
  - `refused`: `asyncio.open_connection` raises (e.g. connection refused),
    before the local variable `writer` is ever bound;
  - `readFails prior`: the connection opens, the reads in `prior` are
    delivered, and then `reader.read` raises;
  - `delivers reads`: the connection opens and the reads are delivered. -/
inductive TransportRun
  | refused
  | readFails (prior : List (List Nat))
  | delivers (reads : List (List Nat))

/-- Observable result of a returning or raising `send_question` call. -/
structure ClientResult where
  returned : Option (Option (List Nat))
  closeCalled : Bool
  errorLogged : Bool
deriving DecidableEq

/-- `TCPClient.send_question` (tcp_client.py lines 12-54).  The result is
`none` when the call never returns (the read loop blocks).  Otherwise
`returned = some (some p)` models returning the temp-file path holding
payload `p` (the success shape), `returned = some none` models returning
`None` from the `except` block, and `returned = none` models an exception
escaping to the caller.  `closeCalled` records whether `writer.close()` in
the `finally` block ran: when `open_connection` itself raised, `writer` is
an unbound local, so `writer.close()` raises `UnboundLocalError`, the
pending `return None` is discarded and the exception escapes — no close,
no "Connection closed" log.  When `reader.read` raises after the writes in
`prior` were consumed without a break, the `except` block logs and returns
`None` and the `finally` closes normally. -/
def send_question : TransportRun → Option ClientResult
  | .refused => some ⟨none, false, true⟩
  | .readFails prior =>
      (match readLoop [] prior with
       | some (p, _) => some ⟨some (some p), true, false⟩
       | none => some ⟨some none, true, true⟩)
  | .delivers reads =>
      (readLoop [] reads).map (fun r => ⟨some (some r.1), true, false⟩)

/-- Result of `MultiModelAgent.__init__`: either a constructed agent of the
given model type, or a `ValueError` raised at construction time. -/
inductive AIModelType
  | CHATGPT
  | QWEN
  | CLAUDE
deriving DecidableEq

/-- Constructor outcome: `ok` with the selected model type, or a raised
`ValueError` with its message. -/
inductive InitResult
  | ok (t : AIModelType)
  | valueError (msg : String)
deriving DecidableEq

/-- The provider-selection condition of the agents-variant
`MultiModelAgent.__init__` (src/app/agents/class_agents.py line 84):
`if "gpt" in model_name.lower() or "tts" in model_name.lower()`. -/
def gptTtsCondition (name : String) : Bool :=
  containsSeq "gpt".data (pyLower name) || containsSeq "tts".data (pyLower name)

/-- The model-selection logic of the agents-variant
`MultiModelAgent.__init__` (src/app/agents/class_agents.py lines 84-100),
with the process environment abstracted as `env`.  The gpt/tts branch
requires `OPENAI_AI_KEY`, the qwen branch `QWEN_AI_KEY`; any other name
raises `ValueError` immediately. -/
def agentsInit (env : String → Option String) (name : String) : InitResult :=
  if gptTtsCondition name then
    match env "OPENAI_AI_KEY" with
    | none => .valueError "OPENAI_AI_KEY not found in environment variables"
    | some _ => .ok .CHATGPT
  else if containsSeq "qwen".data (pyLower name) then
    match env "QWEN_AI_KEY" with
    | none => .valueError "QWEN_AI_KEY not found in environment variables"
    | some _ => .ok .QWEN
  else .valueError ("Unrecognized model: " ++ name)

/-- The model-selection logic of the instances-variant
`MultiModelAgent.__init__` (src/app/instances/class_agents.py lines 41-60):
branches on "gpt", "claude", "qwen" (no API-key checks in this variant);
any other name raises `ValueError` immediately. -/
def instancesInit (name : String) : InitResult :=
  if containsSeq "gpt".data (pyLower name) then .ok .CHATGPT
  else if containsSeq "claude".data (pyLower name) then .ok .CLAUDE
  else if containsSeq "qwen".data (pyLower name) then .ok .QWEN
  else .valueError ("Unrecognized model: " ++ name)

/-- Specification of `startsWithSeq`: it decides "`l` begins with `p`". -/
theorem startsWithSeq_spec [DecidableEq α] (p l : List α) :
    startsWithSeq p l = true ↔ ∃ t, l = p ++ t := by
  induction p generalizing l with
  | nil => exact iff_of_true rfl ⟨l, rfl⟩
  | cons a as ih =>
    cases l with
    | nil => simp [startsWithSeq]
    | cons b bs =>
      simp only [startsWithSeq, Bool.and_eq_true, decide_eq_true_eq, ih,
        List.cons_append, List.cons.injEq]
      constructor
      · rintro ⟨rfl, t, rfl⟩
        exact ⟨t, rfl, rfl⟩
      · rintro ⟨t, rfl, rfl⟩
        exact ⟨rfl, t, rfl⟩

/-- Specification of `containsSeq`: it decides "`p` occurs contiguously in
`l`", the semantics of Python's `in` on byte strings. -/
theorem containsSeq_spec [DecidableEq α] (p l : List α) :
    containsSeq p l = true ↔ ∃ s t, l = s ++ p ++ t := by
  induction l with
  | nil =>
    simp only [containsSeq, startsWithSeq_spec]
    constructor
    · rintro ⟨t, h⟩
      exact ⟨[], t, by simpa using h⟩
    · rintro ⟨s, t, h⟩
      rcases List.append_eq_nil.mp (List.append_eq_nil.mp h.symm).1 with ⟨_, hp⟩
      exact ⟨[], by simp [← h, hp]⟩
  | cons x xs ih =>
    simp only [containsSeq, Bool.or_eq_true, startsWithSeq_spec, ih]
    constructor
    · rintro (⟨t, h⟩ | ⟨s, t, h⟩)
      · exact ⟨[], t, by simpa using h⟩
      · exact ⟨x :: s, t, by simp [h]⟩
    · rintro ⟨s, t, h⟩
      cases s with
      | nil => exact Or.inl ⟨t, by simpa using h⟩
      | cons y s' =>
        simp only [List.cons_append, List.cons.injEq] at h
        exact Or.inr ⟨s', t, h.2⟩

/-- A pattern absent from `l` is absent from any `l.take n`. -/
theorem containsSeq_take [DecidableEq α] (p l : List α) (n : Nat)
    (h : containsSeq p l = false) : containsSeq p (l.take n) = false := by
  by_contra hc
  rw [Bool.not_eq_false, containsSeq_spec] at hc
  obtain ⟨s, t, hst⟩ := hc
  rw [Bool.eq_false_iff] at h
  apply h
  rw [containsSeq_spec]
  refine ⟨s, t ++ l.drop n, ?_⟩
  conv_lhs => rw [← List.take_append_drop n l]
  rw [hst]
  simp

/-- A pattern absent from `l` is absent from any `l.drop n`. -/
theorem containsSeq_drop [DecidableEq α] (p l : List α) (n : Nat)
    (h : containsSeq p l = false) : containsSeq p (l.drop n) = false := by
  by_contra hc
  rw [Bool.not_eq_false, containsSeq_spec] at hc
  obtain ⟨s, t, hst⟩ := hc
  rw [Bool.eq_false_iff] at h
  apply h
  rw [containsSeq_spec]
  refine ⟨l.take n ++ s, t, ?_⟩
  conv_lhs => rw [← List.take_append_drop n l]
  rw [hst]
  simp

/-- Concatenating the chunks of `chunkSplitFuel` restores the data, for
positive chunk size and sufficient fuel. -/
theorem chunkSplitFuel_flatten (n : Nat) (hn : 0 < n) :
    ∀ (fuel : Nat) (l : List α), l.length ≤ fuel →
      (chunkSplitFuel n fuel l).flatten = l := by
  intro fuel
  induction fuel with
  | zero =>
    intro l hl
    have : l = [] := List.length_eq_zero.mp (Nat.le_zero.mp hl)
    subst this
    rfl
  | succ fuel ih =>
    intro l hl
    cases l with
    | nil => rfl
    | cons x xs =>
      show ((x :: xs).take n :: chunkSplitFuel n fuel ((x :: xs).drop n)).flatten = x :: xs
      rw [List.flatten_cons, ih]
      · exact List.take_append_drop n (x :: xs)
      · rw [List.length_drop]
        simp only [List.length_cons] at hl ⊢
        omega

/-- Concatenating the chunks of `chunkSplit` restores the data. -/
theorem chunkSplit_flatten (n : Nat) (hn : 0 < n) (l : List α) :
    (chunkSplit n l).flatten = l :=
  chunkSplitFuel_flatten n hn l.length l le_rfl

/-- The read loop applied to the lone sentinel write: the sentinel is found
in the chunk, nothing precedes it, and the loop stops via the marker
branch. -/
theorem readLoop_endMarker (acc : List Nat) :
    readLoop acc [endMarker] = some (acc, true) := by
  show some (acc ++ [], true) = some (acc, true)
  rw [List.append_nil]

/-- Main round-trip lemma: running the client read loop on the server's
chunked writes followed by the sentinel write reconstructs the payload and
stops via the sentinel branch, for payloads free of the sentinel. -/
theorem readLoop_frameFuel :
    ∀ (fuel : Nat) (data acc : List Nat), data.length ≤ fuel →
      containsSeq endMarker data = false →
      readLoop acc (chunkSplitFuel chunkSize fuel data ++ [endMarker]) =
        some (acc ++ data, true) := by
  intro fuel
  induction fuel with
  | zero =>
    intro data acc hl _
    have : data = [] := List.length_eq_zero.mp (Nat.le_zero.mp hl)
    subst this
    simpa using readLoop_endMarker acc
  | succ fuel ih =>
    intro data acc hl hm
    cases data with
    | nil => simpa using readLoop_endMarker acc
    | cons x xs =>
      have hchunk : chunkSplitFuel chunkSize (fuel + 1) (x :: xs) =
          (x :: xs).take chunkSize :: chunkSplitFuel chunkSize fuel ((x :: xs).drop chunkSize) :=
        rfl
      rw [hchunk, List.cons_append, readLoop]
      have hne : ¬((x :: xs).take chunkSize = []) := by
        simp [List.take_eq_nil_iff, chunkSize]
      rw [if_neg hne]
      have hnm : ¬(containsSeq endMarker ((x :: xs).take chunkSize) = true) := by
        rw [Bool.not_eq_true]
        exact containsSeq_take endMarker (x :: xs) chunkSize hm
      rw [if_neg hnm]
      rw [ih ((x :: xs).drop chunkSize) (acc ++ (x :: xs).take chunkSize) ?hfuel ?hdropm]
      · rw [List.append_assoc, List.take_append_drop]
      case hfuel =>
        rw [List.length_drop]
        simp only [List.length_cons] at hl ⊢
        have : 0 < chunkSize := by decide
        omega
      case hdropm => exact containsSeq_drop endMarker (x :: xs) chunkSize hm

/-- C1: for every binary payload `P` that does not contain the sentinel
byte sequence, framing `P` with the server write side
(`TCPServer.send_message`: 1 MiB chunks followed by the sentinel) and
parsing the resulting stream with the client read side (the read loop of
`TCPClient.send_question`) reconstructs a payload byte-identical to `P`.
The statement is universal over payload length, so it covers the empty
payload and payloads of exactly one chunk and of several chunks. -/
theorem c1_frame_roundtrip (P : List Nat) (st : ServerState)
    (hP : containsSeq endMarker P = false)
    (hw : st.client_writer.isSome = true) :
    readLoop [] (send_message st (.bytes P) none).2.1 = some (P, true) := by
  have hcond : sendCondition st none = true := by
    simp [sendCondition, hw]
  rw [send_message, if_pos hcond]
  show readLoop [] (frameWrites P) = some (P, true)
  rw [frameWrites, chunkSplit]
  simpa using readLoop_frameFuel P.length P [] le_rfl hP

/-- Witness for C1 at the concrete payload `[1, 2, 3]` and an active
writer. -/
theorem c1_frame_roundtrip_witness :
    containsSeq endMarker [1, 2, 3] = false ∧
      (⟨none, none, some 0⟩ : ServerState).client_writer.isSome = true ∧
      readLoop [] (send_message ⟨none, none, some 0⟩ (.bytes [1, 2, 3]) none).2.1 =
        some ([1, 2, 3], true) :=
  ⟨by decide, by decide,
    c1_frame_roundtrip [1, 2, 3] ⟨none, none, some 0⟩ (by decide) (by decide)⟩

/-- C2 (code bug evidence): when the connection closes (zero-length read)
before the sentinel was seen, the read loop breaks via the empty-read
branch without having seen the sentinel, yet `send_question` produces a
result identical to that of a correctly terminated transfer of the same
bytes: the truncated payload is returned as a success (the temp-file
path), with no failed/incomplete outcome. -/
theorem c2_early_close_reported_as_success :
    readLoop [] [[1, 2, 3], []] = some ([1, 2, 3], false) ∧
      send_question (.delivers [[1, 2, 3], []]) =
        send_question (.delivers [[1, 2, 3], endMarker]) ∧
      send_question (.delivers [[1, 2, 3], []]) =
        some ⟨some (some [1, 2, 3]), true, false⟩ :=
  ⟨by decide, by decide, by decide⟩

/-- C3 (code bug evidence): when `asyncio.open_connection` raises
(connection refused), the `finally` block evaluates `writer.close()` with
`writer` unbound, so an `UnboundLocalError` escapes `send_question`
instead of the pending `return None`, and no close/log happens
(`returned = none`, `closeCalled = false`).  By contrast, a read error
after a successful open is handled as the claim says: `None` is returned
and the connection is closed. -/
theorem c3_connection_refused_exception_escapes :
    send_question .refused = some ⟨none, false, true⟩ ∧
      send_question (.readFails []) = some ⟨some none, true, true⟩ :=
  ⟨rfl, rfl⟩

/-- C4: for every payload sent while a client writer is active, the chunk
sequence `TCPServer.send_message` writes is exactly the payload (a `str`
first UTF-8 encoded) split into 1 MiB chunks in order followed by the
sentinel and nothing else, and the bytes on the wire are the payload
immediately followed by the 14-byte sentinel. -/
theorem c4_send_message_writes (st : ServerState) (a : PyAnswer)
    (hw : st.client_writer.isSome = true) :
    (send_message st a none).2.1 =
        chunkSplit chunkSize (pyAnswerData a) ++ [endMarker] ∧
      (send_message st a none).2.1.flatten = pyAnswerData a ++ endMarker := by
  have hcond : sendCondition st none = true := by
    simp [sendCondition, hw]
  rw [send_message, if_pos hcond]
  refine ⟨rfl, ?_⟩
  show (frameWrites (pyAnswerData a)).flatten = pyAnswerData a ++ endMarker
  rw [frameWrites, List.flatten_append, chunkSplit_flatten chunkSize (by decide)]
  simp

/-- Witness for C4 at the string answer `"Hi"` and an active writer. -/
theorem c4_send_message_writes_witness :
    (⟨none, none, some 0⟩ : ServerState).client_writer.isSome = true ∧
      (send_message ⟨none, none, some 0⟩ (.str "Hi") none).2.1 =
        chunkSplit chunkSize (pyAnswerData (.str "Hi")) ++ [endMarker] ∧
      (send_message ⟨none, none, some 0⟩ (.str "Hi") none).2.1.flatten =
        pyAnswerData (.str "Hi") ++ endMarker :=
  ⟨by decide,
    (c4_send_message_writes ⟨none, none, some 0⟩ (.str "Hi") (by decide)).1,
    (c4_send_message_writes ⟨none, none, some 0⟩ (.str "Hi") (by decide)).2⟩

/-- C5 counterexample: the claim says the gpt/tts dispatch check of
`MultiModelAgent.__init__` (agents variant) is true for every model name;
it is false for the name "claude-3". -/
theorem c5_counterexample : gptTtsCondition "claude-3" = false := by decide

/-- C5 amended: the dispatch check in the code is the correct boolean
logic, true exactly when the lowercased model name contains "gpt" or
contains "tts" as a contiguous substring (so it is not true for every
name; the always-true bug described in the spec is absent from the code). -/
theorem c5_dispatch_condition (name : String) :
    gptTtsCondition name = true ↔
      ((∃ s t, pyLower name = s ++ "gpt".data ++ t) ∨
        (∃ s t, pyLower name = s ++ "tts".data ++ t)) := by
  rw [gptTtsCondition, Bool.or_eq_true, containsSeq_spec, containsSeq_spec]

/-- C6: a model name matching none of the recognized substrings
(case-insensitive "gpt"/"tts"/"qwen" in the agents variant,
"gpt"/"claude"/"qwen" in the instances variant) makes
`MultiModelAgent.__init__` raise `ValueError` at construction time, for
every environment; no agent is constructed, so the error cannot be
deferred to `assist_user`. -/
theorem c6_unrecognized_model_fatal (name : String)
    (env : String → Option String) :
    (containsSeq "gpt".data (pyLower name) = false →
      containsSeq "tts".data (pyLower name) = false →
      containsSeq "qwen".data (pyLower name) = false →
      agentsInit env name = .valueError ("Unrecognized model: " ++ name)) ∧
      (containsSeq "gpt".data (pyLower name) = false →
        containsSeq "claude".data (pyLower name) = false →
        containsSeq "qwen".data (pyLower name) = false →
        instancesInit name = .valueError ("Unrecognized model: " ++ name)) := by
  constructor
  · intro h1 h2 h3
    simp [agentsInit, gptTtsCondition, h1, h2, h3]
  · intro h1 h2 h3
    simp [instancesInit, h1, h2, h3]

/-- Witness for C6 at the concrete unrecognized name "llama-7b". -/
theorem c6_unrecognized_model_fatal_witness :
    agentsInit (fun _ => some "key") "llama-7b" =
        .valueError ("Unrecognized model: " ++ "llama-7b") ∧
      instancesInit "llama-7b" =
        .valueError ("Unrecognized model: " ++ "llama-7b") :=
  ⟨(c6_unrecognized_model_fatal "llama-7b" (fun _ => some "key")).1
      (by decide) (by decide) (by decide),
    (c6_unrecognized_model_fatal "llama-7b" (fun _ => some "key")).2
      (by decide) (by decide) (by decide)⟩

/-- C7: a connection whose first read returns zero bytes makes
`handle_client` return early: `received_message` is left untouched (no
response path is triggered), the warning is logged, and the connection is
closed by the `finally` block. -/
theorem c7_empty_read_noop (st : ServerState) (addr w : Nat) :
    (handle_client st addr w []).state.received_message = st.received_message ∧
      (handle_client st addr w []).outcome = .earlyReturn ∧
      (handle_client st addr w []).warned = true ∧
      (handle_client st addr w []).closeCalled = true :=
  ⟨rfl, rfl, rfl, rfl⟩

/-- C8: whenever `send_message` returns `True`, the three active-context
fields are all cleared to `None`; and one iteration of the service loop of
`VoiceAnswer.get_voice_answer` always leaves `received_message` cleared
after processing. -/
theorem c8_state_cleared_after_send (st : ServerState) (a : PyAnswer)
    (addr : Option Nat) (h : (send_message st a addr).2.2 = true) :
    (send_message st a addr).1.client_writer = none ∧
      (send_message st a addr).1.client_address = none ∧
      (send_message st a addr).1.received_message = none ∧
      ∀ (ap : String → String) (tts : String → List Nat) (st2 : ServerState),
        (processCycle ap tts st2).1.received_message = none := by
  by_cases hc : sendCondition st addr = true
  · rw [send_message, if_pos hc]
    refine ⟨rfl, rfl, rfl, ?_⟩
    intro ap tts st2
    unfold processCycle
    split
    · next heq => exact heq
    · rfl
  · rw [send_message, if_neg hc] at h
    exact absurd h (by simp)

/-- Witness for C8 at a concrete active state. -/
theorem c8_state_cleared_after_send_witness :
    (send_message ⟨some "q", some 7, some 3⟩ (.bytes [1]) none).2.2 = true ∧
      (send_message ⟨some "q", some 7, some 3⟩ (.bytes [1]) none).1.client_writer =
        none ∧
      (processCycle (fun _ => "a") (fun _ => [2])
          ⟨some "q", some 7, some 3⟩).1.received_message = none :=
  ⟨by decide,
    (c8_state_cleared_after_send ⟨some "q", some 7, some 3⟩ (.bytes [1]) none
      (by decide)).1,
    (c8_state_cleared_after_send ⟨some "q", some 7, some 3⟩ (.bytes [1]) none
      (by decide)).2.2.2 (fun _ => "a") (fun _ => [2]) ⟨some "q", some 7, some 3⟩⟩

/-- C9: a non-empty first read of at most 1 MiB of valid UTF-8 makes
`handle_client` perform exactly one read and store exactly the bytes
decoded as UTF-8 with surrounding whitespace stripped. -/
theorem c9_single_read_stores_stripped (st : ServerState) (addr w : Nat)
    (data : List Nat) (s : String) (hne : data ≠ [])
    (_hlen : data.length ≤ 1024 * 1024) (hdec : pyDecode data = some s) :
    (handle_client st addr w data).readsPerformed = 1 ∧
      (handle_client st addr w data).state.received_message =
        some (pyStripStr s) ∧
      (handle_client st addr w data).outcome = .stored (pyStripStr s) := by
  rw [handle_client]
  rw [if_neg hne, hdec]
  exact ⟨rfl, rfl, rfl⟩

/-- Witness for C9 at the concrete read `b" hi\n"`. -/
theorem c9_single_read_stores_stripped_witness :
    ([32, 104, 105, 10] : List Nat) ≠ [] ∧
      ([32, 104, 105, 10] : List Nat).length ≤ 1024 * 1024 ∧
      pyDecode [32, 104, 105, 10] = some " hi\n" ∧
      (handle_client ⟨none, none, none⟩ 7 3
          [32, 104, 105, 10]).state.received_message = some "hi" := by
  refine ⟨by decide, by decide, by decide, ?_⟩
  have h := (c9_single_read_stores_stripped ⟨none, none, none⟩ 7 3
    [32, 104, 105, 10] " hi\n" (by decide) (by decide) (by decide)).2.1
  exact h.trans (by decide)

/-- C10: when `client_writer` is `None`, or a non-`None` address argument
differs from the recorded `client_address`, `send_message` returns `False`,
writes nothing, and leaves the state unchanged. -/
theorem c10_send_message_error_no_effect (st : ServerState) (a : PyAnswer)
    (addr : Option Nat)
    (h : st.client_writer = none ∨ (addr ≠ none ∧ addr ≠ st.client_address)) :
    send_message st a addr = (st, [], false) := by
  have hc : ¬(sendCondition st addr = true) := by
    rcases h with h | ⟨h1, h2⟩
    · simp [sendCondition, h]
    · simp [sendCondition, Option.isNone_iff_eq_none, h1, h2]
  rw [send_message, if_neg hc]

/-- Witness for C10 at a state with no active writer. -/
theorem c10_send_message_error_no_effect_witness :
    ((⟨some "q", some 7, none⟩ : ServerState).client_writer = none ∨
        ((none : Option Nat) ≠ none ∧
          (none : Option Nat) ≠ (⟨some "q", some 7, none⟩ : ServerState).client_address)) ∧
      send_message ⟨some "q", some 7, none⟩ (.bytes [1]) none =
        (⟨some "q", some 7, none⟩, [], false) :=
  ⟨Or.inl rfl,
    c10_send_message_error_no_effect ⟨some "q", some 7, none⟩ (.bytes [1]) none
      (Or.inl rfl)⟩

/-- The sentinel constant is the UTF-8 encoding of the Python literal
`b"<END_OF_AUDIO>"`. -/
theorem endMarker_encodes_sentinel : endMarker = pyEncodeStr "<END_OF_AUDIO>" := by
  decide

/-- Model validation for the UTF-8 codec: accepted 1-, 2-, 3- and 4-byte
sequences decode as Python does, and a lone continuation lead, a truncated
sequence, a surrogate and an overlong encoding are all rejected. -/
theorem pyDecode_model_checks :
    pyDecode [104, 105] = some "hi" ∧
      pyDecode [0xC3, 0xA9] = some "é" ∧
      pyDecode [0xE2, 0x82, 0xAC] = some "€" ∧
      pyDecode [0xF0, 0x9F, 0x98, 0x80] = some "😀" ∧
      pyDecode [0xFF] = none ∧
      pyDecode [0xC3] = none ∧
      pyDecode [0xED, 0xA0, 0x80] = none ∧
      pyDecode [0xC0, 0x80] = none := by
  decide

/-- Model validation for the string helpers used by the dispatch and
message handling models. -/
theorem pyString_model_checks :
    pyEncodeStr "Hi" = [72, 105] ∧
      pyStripStr "  hi " = "hi" ∧
      pyStripStr "\u00A0hi" = "hi" ∧
      pyDecode [0xC2, 0xA0, 104, 105] = some "\u00A0hi" ∧
      pyLower "Claude-3" = "claude-3".data := by
  decide

/-- Model validation for the agent constructors on the model names the
repository actually instantiates ("gpt-4.1", "gpt-4o-mini-tts",
"qwen2.5-7b-instruct"). -/
theorem agentInit_model_checks :
    gptTtsCondition "gpt-4.1" = true ∧
      gptTtsCondition "gpt-4o-mini-tts" = true ∧
      instancesInit "Claude-3" = .ok .CLAUDE ∧
      agentsInit (fun _ => some "k") "qwen2.5-7b-instruct" = .ok .QWEN := by
  repeat constructor
